import Mathlib

/-!
Shallow embedding of `include/type_safe/bounded_type.hpp` (the `type_safe`
library's bounded/constrained value core).  The scalar type `T` and every
candidate type `U` comparable to it are modelled as `Int`.  The template
parameter `BoundConstant` (either `dynamic_bound` or a compile-time constant
type in the `boost::hana::Constant` style) is modelled by the inductive
`Bound`, which also carries the boundary value itself, since for a dynamic
bound the value lives in the `detail::Wrapper<T>` field and for a static bound
it is the constant type's nested `value`.  Build-time checks (`static_assert`,
`enable_if`, template specialization choice) are modelled as Boolean functions
of the type-level data they inspect.
-/

namespace TypeSafe

/-- Representation of the `BoundConstant` template parameter together with the
boundary it denotes: `dynamic` mirrors `dynamic_bound` (boundary stored as a
run-time field inside `detail::Wrapper<T>`), `staticConst` mirrors a
compile-time constant type whose nested `value` is the boundary. -/
inductive Bound where
  | dynamic (value : Int)
  | staticConst (value : Int)
deriving DecidableEq

/-- Mirrors `detail::is_dynamic<BoundConstant>`, that is
`std::is_same<BoundConstant, dynamic_bound>`. -/
def Bound.is_dynamic : Bound → Bool
  | .dynamic _ => true
  | .staticConst _ => false

/-- Mirrors the `Base::value` read done by `get_bound()`: the wrapper field for
a dynamic bound, the constant type's `value` for a static one. -/
def Bound.get : Bound → Int
  | .dynamic v => v
  | .staticConst v => v

/-- Mirrors the `static_assert(!is_dynamic, ...)` guarding the no-argument
constructor `Name()` produced by `TYPE_SAFE_DETAIL_MAKE` (the same for all
four predicate kinds): instantiation succeeds iff the bound is static. -/
def default_ctor_ok (bc : Bound) : Bool := !bc.is_dynamic

/-- Mirrors the `static_assert(is_dynamic, ...)` guarding the one-argument
constructors `Name(const T&)` and `Name(T&&)` produced by
`TYPE_SAFE_DETAIL_MAKE`: instantiation succeeds iff the bound is dynamic. -/
def bound_arg_ctor_ok (bc : Bound) : Bool := bc.is_dynamic

/-- Mirrors `constraints::less<T, BoundConstant>`. -/
structure less where
  bound : Bound
deriving DecidableEq

/-- Mirrors `less::get_bound()`. -/
def less.get_bound (p : less) : Int := p.bound.get

/-- Mirrors `less::operator()(u)`, which returns `u < get_bound()`. -/
def less.test (p : less) (u : Int) : Bool := decide (u < p.get_bound)

/-- Mirrors `constraints::less_equal<T, BoundConstant>`. -/
structure less_equal where
  bound : Bound
deriving DecidableEq

/-- Mirrors `less_equal::get_bound()`. -/
def less_equal.get_bound (p : less_equal) : Int := p.bound.get

/-- Mirrors `less_equal::operator()(u)`, which returns `u <= get_bound()`. -/
def less_equal.test (p : less_equal) (u : Int) : Bool := decide (u ≤ p.get_bound)

/-- Mirrors `constraints::greater<T, BoundConstant>`. -/
structure greater where
  bound : Bound
deriving DecidableEq

/-- Mirrors `greater::get_bound()`. -/
def greater.get_bound (p : greater) : Int := p.bound.get

/-- Mirrors `greater::operator()(u)`, which returns `u > get_bound()`. -/
def greater.test (p : greater) (u : Int) : Bool := decide (u > p.get_bound)

/-- Mirrors `constraints::greater_equal<T, BoundConstant>`. -/
structure greater_equal where
  bound : Bound
deriving DecidableEq

/-- Mirrors `greater_equal::get_bound()`. -/
def greater_equal.get_bound (p : greater_equal) : Int := p.bound.get

/-- Mirrors `greater_equal::operator()(u)`, which returns `u >= get_bound()`. -/
def greater_equal.test (p : greater_equal) (u : Int) : Bool :=
  decide (u ≥ p.get_bound)

/-- Mirrors `constraints::bounded<T, LowerInclusive, UpperInclusive,
LowerConstant, UpperConstant>`: it inherits a `detail::lower_bound_t`
(`greater_equal` when `LowerInclusive`, else `greater`) and a
`detail::upper_bound_t` (`less_equal` when `UpperInclusive`, else `less`).
The two inclusivity template parameters and the two inherited predicates'
bounds are the fields. -/
structure bounded where
  lowerInclusive : Bool
  upperInclusive : Bool
  lowerBound : Bound
  upperBound : Bound
deriving DecidableEq

/-- Test of the inherited lower-bound predicate `lower()(u)`: per
`detail::lower_bound_t`, `greater_equal` when inclusive, `greater` otherwise. -/
def bounded.lower_test (bd : bounded) (u : Int) : Bool :=
  if bd.lowerInclusive then (greater_equal.mk bd.lowerBound).test u
  else (greater.mk bd.lowerBound).test u

/-- Test of the inherited upper-bound predicate `upper()(u)`: per
`detail::upper_bound_t`, `less_equal` when inclusive, `less` otherwise. -/
def bounded.upper_test (bd : bounded) (u : Int) : Bool :=
  if bd.upperInclusive then (less_equal.mk bd.upperBound).test u
  else (less.mk bd.upperBound).test u

/-- Mirrors `bounded::operator()(u)`, which returns `lower()(u) && upper()(u)`. -/
def bounded.test (bd : bounded) (u : Int) : Bool :=
  bd.lower_test u && bd.upper_test u

/-- Instrumented evaluation of `lower()(u) && upper()(u)` following the C++
short-circuit semantics of `&&`: the first component is the result, the second
records whether the upper predicate was evaluated (it is evaluated exactly when
the lower predicate succeeded). -/
def bounded.test_trace (bd : bounded) (u : Int) : Bool × Bool :=
  if bd.lower_test u then (bd.upper_test u, true) else (false, false)

/-- Mirrors `bounded::get_lower_bound()`, delegating to the lower predicate. -/
def bounded.get_lower_bound (bd : bounded) : Int := bd.lowerBound.get

/-- Mirrors `bounded::get_upper_bound()`, delegating to the upper predicate. -/
def bounded.get_upper_bound (bd : bounded) : Int := bd.upperBound.get

/-- Mirrors the class-level
`static_assert(lower_is_dynamic == upper_is_dynamic, "mixed static and dynamic
bounds is unsupported")` in `bounded`: instantiating the class succeeds iff the
two representation parameters agree.  It inspects only the template parameters
`LowerConstant`/`UpperConstant`, never a run-time value. -/
def bounded_bounds_assert_ok (lc uc : Bound) : Bool :=
  lc.is_dynamic == uc.is_dynamic

/-- Mirrors `constraints::open_interval<T> = bounded<T, open, open>` (both
inclusivity flags `open = false`) built via the two-argument constructor from
two run-time bounds, which stores the first argument in the lower predicate and
the second in the upper predicate. -/
def open_interval (lo hi : Int) : bounded :=
  { lowerInclusive := false, upperInclusive := false
    lowerBound := .dynamic lo, upperBound := .dynamic hi }

/-- Mirrors `constraints::closed_interval<T> = bounded<T, closed, closed>`
(both inclusivity flags `closed = true`) built via the two-argument constructor
from two run-time bounds. -/
def closed_interval (lo hi : Int) : bounded :=
  { lowerInclusive := true, upperInclusive := true
    lowerBound := .dynamic lo, upperBound := .dynamic hi }

/-- Mirrors `clamp(const constraints::closed_interval<T>&, U&)`: if the value
is below the lower bound assign the lower bound, else if above the upper bound
assign the upper bound, else leave it unchanged. -/
def clamp (interval : bounded) (val : Int) : Int :=
  if val < interval.get_lower_bound then interval.get_lower_bound
  else if val > interval.get_upper_bound then interval.get_upper_bound
  else val

/-- The three control paths of `clamp`: the first branch, the `else if`
branch, or neither. -/
inductive ClampBranch where
  | below_lower
  | above_upper
  | unchanged
deriving DecidableEq

/-- Which branch of `clamp` fires, following its `if` / `else if` structure. -/
def clamp_branch (interval : bounded) (val : Int) : ClampBranch :=
  if val < interval.get_lower_bound then .below_lower
  else if val > interval.get_upper_bound then .above_upper
  else .unchanged

/-- Mirrors `clamping_verifier::verify(Value&, const less_equal<T>&)`: if the
predicate rejects the value, assign the predicate's bound, else do nothing.
The updated value is returned. -/
def clamping_verifier_verify_le (val : Int) (p : less_equal) : Int :=
  if !(p.test val) then p.get_bound else val

/-- Mirrors `clamping_verifier::verify(Value&, const greater_equal<T>&)`: if
the predicate rejects the value, assign the predicate's bound, else do nothing.
The updated value is returned. -/
def clamping_verifier_verify_ge (val : Int) (p : greater_equal) : Int :=
  if !(p.test val) then p.get_bound else val

/-- Mirrors `clamping_verifier::verify(Value&, const closed_interval<T>&)`,
which is `clamp(interval, val)`. -/
def clamping_verifier_verify_interval (val : Int) (interval : bounded) : Int :=
  clamp interval val

/-- A small universe of distinct decayed C++ scalar types, enough to model the
type-level behaviour of the deduction layer `detail::bounded_value_type`. -/
inductive Ty where
  | int
  | long
  | double
deriving DecidableEq, Fintype

/-- Outcome of instantiating `detail::bounded_value_type_impl<T, U1, U2>`:
whether the instantiation provides the nested `type` member (so
`make_bounded` and friends are well-formed), and whether the `static_assert`
carrying the message "make_bounded() called with mismatching types" fires. -/
structure ImplInst where
  has_type : Bool
  names_mismatching_types : Bool
deriving DecidableEq

/-- Mirrors `detail::bounded_value_type_impl` applied to the three decayed
argument types.  The partial specialization `<T, T, T>` is chosen when all
three coincide; it provides `type = T` and contains no assertion.  Otherwise
the primary template is chosen: it provides no `type` member (so any use of
`bounded_value_type` is ill-formed, a build failure) and contains
`static_assert(!is_same<T,U1> && !is_same<U1,U2>, "make_bounded() called with
mismatching types")`, which fires (emitting that message) exactly when its
condition is false. -/
def bounded_value_type_impl (t u1 u2 : Ty) : ImplInst :=
  if t = u1 ∧ u1 = u2 then { has_type := true, names_mismatching_types := false }
  else
    { has_type := false
      names_mismatching_types := !(decide (t ≠ u1) && decide (u1 ≠ u2)) }

/-- Well-formedness of a `make_bounded` / `make_bounded_exclusive` /
`make_clamped` call: all three name `detail::bounded_value_type<T, U1, U2>` in
their return type, so the call compiles iff the instantiation has the nested
`type` member. -/
def make_bounded_well_formed (t u1 u2 : Ty) : Bool :=
  (bounded_value_type_impl t u1 u2).has_type

/-- C1: for each of the four predicate kinds (less, less_equal, greater,
greater_equal) with bound k — whether the bound is static or dynamic — the
test returns exactly the corresponding order relation of the candidate against
k.  The test is a pure function of the predicate and the candidate, so
repeated calls are definitionally identical. -/
theorem predicate_test_matches_relation (k x : Int) :
    less.test ⟨.dynamic k⟩ x = decide (x < k)
  ∧ less.test ⟨.staticConst k⟩ x = decide (x < k)
  ∧ less_equal.test ⟨.dynamic k⟩ x = decide (x ≤ k)
  ∧ less_equal.test ⟨.staticConst k⟩ x = decide (x ≤ k)
  ∧ greater.test ⟨.dynamic k⟩ x = decide (x > k)
  ∧ greater.test ⟨.staticConst k⟩ x = decide (x > k)
  ∧ greater_equal.test ⟨.dynamic k⟩ x = decide (x ≥ k)
  ∧ greater_equal.test ⟨.staticConst k⟩ x = decide (x ≥ k) :=
  ⟨rfl, rfl, rfl, rfl, rfl, rfl, rfl, rfl⟩

/-- C2: for every bounded interval and candidate, the test equals the
conjunction of the lower and upper component predicates, and — following the
C++ short-circuit semantics of `&&` recorded by `test_trace` — the upper
predicate is evaluated exactly when the lower predicate succeeds. -/
theorem bounded_test_conjunction_short_circuit (bd : bounded) (u : Int) :
    bd.test u = (bd.lower_test u && bd.upper_test u)
  ∧ (bd.test_trace u).1 = bd.test u
  ∧ (bd.test_trace u).2 = bd.lower_test u := by
  refine ⟨rfl, ?_, ?_⟩ <;>
    cases h : bd.lower_test u <;>
      simp [bounded.test_trace, bounded.test, h]

/-- C3: `clamp([2,5], 10) = 5`, `clamp([2,5], -1) = 2`, `clamp([2,5], 3) = 3`;
and in every call exactly one branch fires: the three branch conditions
(below-lower, above-upper, neither) are mutually exclusive and exhaustive, and
the result is determined by the single branch taken. -/
theorem clamp_examples_and_single_branch :
    clamp (closed_interval 2 5) 10 = 5
  ∧ clamp (closed_interval 2 5) (-1) = 2
  ∧ clamp (closed_interval 2 5) 3 = 3
  ∧ ∀ (i : bounded) (v : Int),
      (clamp i v = (match clamp_branch i v with
        | .below_lower => i.get_lower_bound
        | .above_upper => i.get_upper_bound
        | .unchanged => v))
    ∧ (clamp_branch i v = .below_lower ↔ v < i.get_lower_bound)
    ∧ (clamp_branch i v = .above_upper ↔
        ¬(v < i.get_lower_bound) ∧ v > i.get_upper_bound)
    ∧ (clamp_branch i v = .unchanged ↔
        ¬(v < i.get_lower_bound) ∧ ¬(v > i.get_upper_bound)) := by
  refine ⟨by decide, by decide, by decide, fun i v => ?_⟩
  unfold clamp clamp_branch
  split_ifs with h1 h2 <;> simp_all

/-- C4: the closed interval [2,5] contains both endpoints and rejects values
outside them; the open interval (2,5) excludes both endpoints and contains the
interior value 3. -/
theorem interval_contains_examples :
    (closed_interval 2 5).test 2 = true
  ∧ (closed_interval 2 5).test 5 = true
  ∧ (closed_interval 2 5).test 1 = false
  ∧ (closed_interval 2 5).test 6 = false
  ∧ (open_interval 2 5).test 2 = false
  ∧ (open_interval 2 5).test 5 = false
  ∧ (open_interval 2 5).test 3 = true := by decide

/-- C5: verify against a less_equal predicate rewrites the value to the bound
exactly when the value exceeds the bound, and otherwise returns it unchanged;
symmetrically, verify against a greater_equal predicate rewrites to the bound
exactly when the value is below the bound. -/
theorem clamping_verifier_one_sided (p : less_equal) (q : greater_equal)
    (v : Int) :
    clamping_verifier_verify_le v p =
      (if p.get_bound < v then p.get_bound else v)
  ∧ clamping_verifier_verify_ge v q =
      (if v < q.get_bound then q.get_bound else v) := by
  constructor <;>
    · simp only [clamping_verifier_verify_le, clamping_verifier_verify_ge,
        less_equal.test, greater_equal.test]
      split_ifs <;> simp_all

/-- C6 counterexample: for three pairwise-distinct argument types the primary
template of `bounded_value_type_impl` is chosen, so the call is ill-formed (no
nested `type`), yet the `static_assert` condition
`!is_same<T,U1> && !is_same<U1,U2>` is true, so the failure does not carry the
"mismatching types" message. -/
theorem mismatching_types_message_counterexample :
    ¬(Ty.int = Ty.long ∧ Ty.long = Ty.double)
  ∧ (bounded_value_type_impl Ty.int Ty.long Ty.double).has_type = false
  ∧ (bounded_value_type_impl Ty.int Ty.long
      Ty.double).names_mismatching_types = false := by decide

/-- C6 amended: every mismatching combination of decayed argument types is a
build-time failure (the instantiation provides no nested `type`), and the
failure carries the "mismatching types" static_assert message exactly when the
value type equals the lower type or the lower type equals the upper type; when
all three types are pairwise distinct the failure is a missing-member error
without that message. -/
theorem mismatch_build_failure (t u1 u2 : Ty) (h : ¬(t = u1 ∧ u1 = u2)) :
    (bounded_value_type_impl t u1 u2).has_type = false
  ∧ ((bounded_value_type_impl t u1 u2).names_mismatching_types = true ↔
      (t = u1 ∨ u1 = u2)) := by
  revert t u1 u2 h
  decide

/-- C6 amended witness at the concrete mismatch (int, int, long). -/
theorem mismatch_build_failure_witness :
    ¬(Ty.int = Ty.int ∧ Ty.int = Ty.long)
  ∧ ((bounded_value_type_impl Ty.int Ty.int Ty.long).has_type = false
    ∧ ((bounded_value_type_impl Ty.int Ty.int
          Ty.long).names_mismatching_types = true ↔
        (Ty.int = Ty.int ∨ Ty.int = Ty.long))) :=
  ⟨by decide, mismatch_build_failure Ty.int Ty.int Ty.long (by decide)⟩

/-- C7: instantiating `bounded` passes its class-level static_assert iff both
bound representations are dynamic or both are static; a mixed combination is
rejected.  The assertion is a function of the two representation parameters
only, independent of any run-time value. -/
theorem mixed_bounds_rejected (lc uc : Bound) :
    bounded_bounds_assert_ok lc uc = true ↔
      ((lc.is_dynamic = true ∧ uc.is_dynamic = true)
        ∨ (lc.is_dynamic = false ∧ uc.is_dynamic = false)) := by
  cases lc <;> cases uc <;>
    simp [bounded_bounds_assert_ok, Bound.is_dynamic]

/-- C8: for every bound representation, the no-argument constructor is valid
exactly when the representation is static, the bound-argument constructors are
valid exactly when it is dynamic, and the two construction modes are mutually
exclusive. -/
theorem ctor_modes_exclusive (bc : Bound) :
    (default_ctor_ok bc = true ↔ bc.is_dynamic = false)
  ∧ (bound_arg_ctor_ok bc = true ↔ bc.is_dynamic = true)
  ∧ default_ctor_ok bc ≠ bound_arg_ctor_ok bc := by
  cases bc <;>
    simp [default_ctor_ok, bound_arg_ctor_ok, Bound.is_dynamic]

/-- C9: for every closed interval whose lower bound is at most its upper
bound, and every value v, the interval's test holds on `clamp(interval, v)`. -/
theorem clamp_establishes_validity (lo hi v : Int) (h : lo ≤ hi) :
    (closed_interval lo hi).test (clamp (closed_interval lo hi) v) = true := by
  unfold closed_interval clamp bounded.test bounded.lower_test
    bounded.upper_test bounded.get_lower_bound bounded.get_upper_bound
  simp only [greater_equal.test, less_equal.test, greater_equal.get_bound,
    less_equal.get_bound, Bound.get]
  split_ifs <;> simp <;> omega

/-- C9 witness at the closed interval [2,5] and value 10. -/
theorem clamp_establishes_validity_witness :
    (2 : Int) ≤ 5
  ∧ (closed_interval 2 5).test (clamp (closed_interval 2 5) 10) = true :=
  ⟨by decide, clamp_establishes_validity 2 5 10 (by decide)⟩

/-- C10: the two-argument constructor accepts an inverted pair of bounds; the
getters report the bounds exactly as given; an open interval with lower ≥
upper rejects every candidate, and a closed interval with lower > upper
rejects every candidate — the interval is empty but well-formed. -/
theorem inverted_interval_empty (lo hi u : Int) (h : hi ≤ lo) :
    (closed_interval lo hi).get_lower_bound = lo
  ∧ (closed_interval lo hi).get_upper_bound = hi
  ∧ (open_interval lo hi).get_lower_bound = lo
  ∧ (open_interval lo hi).get_upper_bound = hi
  ∧ (open_interval lo hi).test u = false
  ∧ (hi < lo → (closed_interval lo hi).test u = false) := by
  refine ⟨rfl, rfl, rfl, rfl, ?_, fun hlt => ?_⟩
  · simp [open_interval, bounded.test, bounded.lower_test, bounded.upper_test,
      greater.test, less.test, greater.get_bound, less.get_bound, Bound.get]
    omega
  · simp [closed_interval, bounded.test, bounded.lower_test,
      bounded.upper_test, greater_equal.test, less_equal.test,
      greater_equal.get_bound, less_equal.get_bound, Bound.get]
    omega

/-- C10 witness at the inverted bounds (lower 5, upper 2) and candidate 3. -/
theorem inverted_interval_empty_witness :
    (2 : Int) ≤ 5
  ∧ ((closed_interval 5 2).get_lower_bound = 5
    ∧ (closed_interval 5 2).get_upper_bound = 2
    ∧ (open_interval 5 2).get_lower_bound = 5
    ∧ (open_interval 5 2).get_upper_bound = 2
    ∧ (open_interval 5 2).test 3 = false
    ∧ ((2 : Int) < 5 → (closed_interval 5 2).test 3 = false)) :=
  ⟨by decide, inverted_interval_empty 5 2 3 (by decide)⟩

end TypeSafe
